import Mathlib

/-!
Shallow embedding of the ObsiRandom plugin's note-selection logic
(`src/main.ts`).  Notes (`TFile`) carry a path, a basename and a creation
timestamp in milliseconds; the selection functions are direct translations
of the TypeScript methods, with the ambient values (`Date.now()`,
`Math.random()`, the vault listing, the settings object and the command
registry) passed explicitly as parameters.  JavaScript string operations
(`startsWith`, `trim`) are modelled over the character list of the string,
matching their literal, character-wise semantics.
-/

/-- Model of JavaScript `String.prototype.startsWith`: `pat` is a literal
character-wise prefix of `s` (no normalization, no case folding, no segment
boundary check). -/
def jsStartsWith (s pat : String) : Bool :=
  pat.data.isPrefixOf s.data

/-- Model of JavaScript `String.prototype.trim`: drop leading and trailing
whitespace characters. -/
def jsTrim (s : String) : String :=
  { data := ((s.data.dropWhile Char.isWhitespace).reverse.dropWhile Char.isWhitespace).reverse }

/-- The `stat` field of an Obsidian `TFile`: creation time in milliseconds. -/
structure FileStats where
  ctime : Int
deriving DecidableEq

/-- An Obsidian `TFile` as used by `main.ts`: path, basename, stats. -/
structure TFile where
  path : String
  basename : String
  stat : FileStats
deriving DecidableEq

/-- Plugin settings: three custom-directory strings (`src/main.ts:10-14`). -/
structure ObsiRandomSettings where
  customDirectory1 : String
  customDirectory2 : String
  customDirectory3 : String
deriving DecidableEq

/-- Defaults for the settings (`src/main.ts:16-20`). -/
def DEFAULT_SETTINGS : ObsiRandomSettings :=
  { customDirectory1 := "", customDirectory2 := "", customDirectory3 := "" }

/-- Shape of the `TIME_PERIODS` constant object. -/
structure TimePeriods where
  WEEK : Int
  MONTH : Int
  YEAR : Int

/-- `TIME_PERIODS` (`src/main.ts:22-26`). -/
def TIME_PERIODS : TimePeriods :=
  { WEEK := 7, MONTH := 30, YEAR := 365 }

/-- `MILLISECONDS_PER_DAY` (`src/main.ts:28`). -/
def MILLISECONDS_PER_DAY : Int := 24 * 60 * 60 * 1000

/-- `getNotesFromPastDays` (`src/main.ts:37-42`); `now` stands for
`Date.now()` and `markdownFiles` for the vault listing. -/
def getNotesFromPastDays (now days : Int) (markdownFiles : List TFile) : List TFile :=
  let cutoffTime := now - days * MILLISECONDS_PER_DAY
  markdownFiles.filter (fun file => decide (cutoffTime ≤ file.stat.ctime))

/-- `getNotesFromPastWeek` (`src/main.ts:44-46`). -/
def getNotesFromPastWeek (now : Int) (markdownFiles : List TFile) : List TFile :=
  getNotesFromPastDays now TIME_PERIODS.WEEK markdownFiles

/-- `getNotesFromPastMonth` (`src/main.ts:48-50`). -/
def getNotesFromPastMonth (now : Int) (markdownFiles : List TFile) : List TFile :=
  getNotesFromPastDays now TIME_PERIODS.MONTH markdownFiles

/-- `getNotesFromPastYear` (`src/main.ts:52-54`). -/
def getNotesFromPastYear (now : Int) (markdownFiles : List TFile) : List TFile :=
  getNotesFromPastDays now TIME_PERIODS.YEAR markdownFiles

/-- `getNotesFromDirectory` (`src/main.ts:56-60`). -/
def getNotesFromDirectory (directoryPath : String) (markdownFiles : List TFile) : List TFile :=
  markdownFiles.filter (fun file => jsStartsWith file.path directoryPath)

/-- JavaScript array indexing `notes[i]` with an integer index: out-of-range
access yields `undefined`, modelled as `none`. -/
def jsArrayGet (notes : List TFile) (i : Int) : Option TFile :=
  if i < 0 then none else notes[i.toNat]?

/-- `getRandomNote` (`src/main.ts:62-66`); `random` stands for the value
returned by `Math.random()`, and `Math.floor` is the integer floor. -/
def getRandomNote (random : ℚ) (notes : List TFile) : Option TFile :=
  if notes.length = 0 then none
  else jsArrayGet notes ⌊random * (notes.length : ℚ)⌋

/-- Observable outcome of `openRandomNote`: the notices emitted and the note
whose open succeeded (if any). -/
structure OpenResult where
  notices : List String
  opened : Option TFile
deriving DecidableEq

/-- `openRandomNote` (`src/main.ts:68-84`); `openSucceeds` stands for the
outcome of the host `openFile` call. -/
def openRandomNote (random : ℚ) (openSucceeds : Bool) (notes : List TFile)
    (context : String) : OpenResult :=
  if notes.length = 0 then
    { notices := ["No notes found " ++ context ++ "!"], opened := none }
  else
    match getRandomNote random notes with
    | none => { notices := [], opened := none }
    | some randomNote =>
      if openSucceeds then
        { notices := ["Opened random note: " ++ randomNote.basename], opened := some randomNote }
      else
        { notices := ["Failed to open note: " ++ randomNote.basename], opened := none }

/-- The settings field selected by `` settings[`customDirectory${n}`] `` for
`n ∈ {1,2,3}` (`src/main.ts:125`). -/
def customDirectoryOf (settings : ObsiRandomSettings) : Nat → String
  | 1 => settings.customDirectory1
  | 2 => settings.customDirectory2
  | 3 => settings.customDirectory3
  | _ => ""

/-- `openRandomNoteFromCustomDirectory` (`src/main.ts:122-136`); `vault`
stands for the vault listing consumed by `getNotesFromDirectory`. -/
def openRandomNoteFromCustomDirectory (random : ℚ) (openSucceeds : Bool)
    (vault : List TFile) (settings : ObsiRandomSettings) (directoryNumber : Nat) : OpenResult :=
  let directoryPath := customDirectoryOf settings directoryNumber
  if jsTrim directoryPath = "" then
    { notices := ["Please set Custom Directory " ++ toString directoryNumber ++
        " in plugin settings first!"],
      opened := none }
  else
    openRandomNote random openSucceeds (getNotesFromDirectory directoryPath vault)
      ("in " ++ directoryPath ++ " directory")

/-- Full registry id of a custom-directory command:
`` `${manifest.id}:open-random-custom-directory-${num}` ``
(`src/main.ts:148`; the host prefixes `addCommand` ids the same way). -/
def customCommandId (manifestId : String) (num : Nat) : String :=
  manifestId ++ ":open-random-custom-directory-" ++ toString num

/-- `removeCustomCommands` (`src/main.ts:146-155`): the command registry is
modelled as the finite set of registered command ids. -/
def removeCustomCommands (manifestId : String) (registry : Finset String) : Finset String :=
  [1, 2, 3].foldl
    (fun acc num =>
      if customCommandId manifestId num ∈ acc then acc.erase (customCommandId manifestId num)
      else acc)
    registry

/-- `addCustomCommands` (`src/main.ts:157-171`). -/
def addCustomCommands (manifestId : String) (settings : ObsiRandomSettings)
    (registry : Finset String) : Finset String :=
  [1, 2, 3].foldl
    (fun acc num =>
      if jsTrim (customDirectoryOf settings num) ≠ "" then
        insert (customCommandId manifestId num) acc
      else acc)
    registry

/-- `updateCommands` (`src/main.ts:173-176`). -/
def updateCommands (manifestId : String) (settings : ObsiRandomSettings)
    (registry : Finset String) : Finset String :=
  addCustomCommands manifestId settings (removeCustomCommands manifestId registry)

/-- A concrete note used to instantiate hypotheses of the theorems below. -/
def sampleNote : TFile :=
  { path := "A/x.md", basename := "x", stat := { ctime := 0 } }

/-- Concrete settings with only slot 1 configured. -/
def sampleSettings : ObsiRandomSettings :=
  { customDirectory1 := "Projects", customDirectory2 := "", customDirectory3 := "" }

/-- Concrete settings whose slot 1 is whitespace-only. -/
def blankSettings : ObsiRandomSettings :=
  { customDirectory1 := "  ", customDirectory2 := "", customDirectory3 := "" }

lemma jsArrayGet_mem (notes : List TFile) (i : Int) (x : TFile)
    (h : jsArrayGet notes i = some x) : x ∈ notes := by
  unfold jsArrayGet at h
  split at h
  · cases h
  · exact List.getElem?_mem h

lemma getRandomNote_none_or_mem (random : ℚ) (notes : List TFile) :
    getRandomNote random notes = none ∨
      ∃ x, x ∈ notes ∧ getRandomNote random notes = some x := by
  cases hg : getRandomNote random notes with
  | none => exact Or.inl rfl
  | some x =>
    refine Or.inr ⟨x, ?_, rfl⟩
    unfold getRandomNote at hg
    split at hg
    · cases hg
    · exact jsArrayGet_mem _ _ _ hg

lemma string_append_left_cancel (s t u : String) (h : s ++ t = s ++ u) : t = u := by
  have hd : s.data ++ t.data = s.data ++ u.data := by
    have h2 := congrArg String.data h
    simpa using h2
  have h3 : t.data = u.data := List.append_cancel_left hd
  cases t
  cases u
  simp_all

lemma customCommandId_inj (manifestId : String) (i j : Nat)
    (hij : toString i ≠ toString j) :
    customCommandId manifestId i ≠ customCommandId manifestId j := by
  intro h
  unfold customCommandId at h
  exact hij (string_append_left_cancel _ _ _ h)

lemma removeStep_eq (x : String) (acc : Finset String) :
    (if x ∈ acc then acc.erase x else acc) = acc.erase x := by
  by_cases h : x ∈ acc
  · simp [h]
  · simp [h, Finset.erase_eq_of_not_mem h]

lemma mem_removeCustomCommands (manifestId id : String) (registry : Finset String) :
    id ∈ removeCustomCommands manifestId registry ↔
      id ∈ registry ∧ id ≠ customCommandId manifestId 1 ∧
        id ≠ customCommandId manifestId 2 ∧ id ≠ customCommandId manifestId 3 := by
  unfold removeCustomCommands
  simp only [List.foldl_cons, List.foldl_nil, removeStep_eq, Finset.mem_erase]
  tauto

lemma mem_addStep (x id : String) (P : Prop) [Decidable P] (acc : Finset String) :
    (id ∈ if P then insert x acc else acc) ↔ (P ∧ id = x) ∨ id ∈ acc := by
  by_cases h : P
  · simp [h, Finset.mem_insert]
  · simp [h]

lemma mem_addCustomCommands (manifestId id : String) (settings : ObsiRandomSettings)
    (registry : Finset String) :
    id ∈ addCustomCommands manifestId settings registry ↔
      (jsTrim (customDirectoryOf settings 1) ≠ "" ∧ id = customCommandId manifestId 1) ∨
      (jsTrim (customDirectoryOf settings 2) ≠ "" ∧ id = customCommandId manifestId 2) ∨
      (jsTrim (customDirectoryOf settings 3) ≠ "" ∧ id = customCommandId manifestId 3) ∨
      id ∈ registry := by
  unfold addCustomCommands
  simp only [List.foldl_cons, List.foldl_nil, mem_addStep]
  tauto

/-- Claim C1: for every non-empty list of notes, `getRandomNote` returns
`some` element that is a member of that list, assuming the randomness source
yields a value in `[0, 1)`. -/
theorem getRandomNote_mem_of_nonempty (notes : List TFile) (random : ℚ)
    (hne : notes ≠ []) (h0 : 0 ≤ random) (h1 : random < 1) :
    ∃ x, getRandomNote random notes = some x ∧ x ∈ notes := by
  have hlen : 0 < notes.length := List.length_pos.mpr hne
  have hnz : ¬ notes.length = 0 := by omega
  have hcast : (0 : ℚ) < (notes.length : ℚ) := by exact_mod_cast hlen
  have hfl0 : 0 ≤ ⌊random * (notes.length : ℚ)⌋ :=
    Int.floor_nonneg.mpr (mul_nonneg h0 hcast.le)
  have hflt : ⌊random * (notes.length : ℚ)⌋ < (notes.length : Int) := by
    apply Int.floor_lt.mpr
    push_cast
    calc random * (notes.length : ℚ) < 1 * (notes.length : ℚ) :=
          mul_lt_mul_of_pos_right h1 hcast
      _ = (notes.length : ℚ) := one_mul _
  have hnotlt : ¬ ⌊random * (notes.length : ℚ)⌋ < 0 := by omega
  have htn : (⌊random * (notes.length : ℚ)⌋).toNat < notes.length := by omega
  refine ⟨notes.get ⟨(⌊random * (notes.length : ℚ)⌋).toNat, htn⟩, ?_, List.get_mem notes _ htn⟩
  unfold getRandomNote jsArrayGet
  rw [if_neg hnz, if_neg hnotlt]
  simp [List.getElem?_eq_getElem htn]

/-- Concrete instance discharging the hypotheses of
`getRandomNote_mem_of_nonempty`. -/
theorem getRandomNote_mem_of_nonempty_witness :
    ([sampleNote] ≠ ([] : List TFile)) ∧ (0 : ℚ) ≤ 0 ∧ (0 : ℚ) < 1 ∧
      ∃ x, getRandomNote 0 [sampleNote] = some x ∧ x ∈ [sampleNote] :=
  ⟨by simp, le_refl 0, by norm_num,
    getRandomNote_mem_of_nonempty [sampleNote] 0 (by simp) (le_refl 0) (by norm_num)⟩

/-- Claim C2: `getRandomNote` on the empty list returns `none`, and on every
list (for every value of the randomness source) it totally evaluates to
either `none` or `some` member of the list — it never fails or produces an
out-of-set value. -/
theorem getRandomNote_empty_and_total (random : ℚ) (notes : List TFile) :
    getRandomNote random [] = none ∧
      (getRandomNote random notes = none ∨
        ∃ x, x ∈ notes ∧ getRandomNote random notes = some x) :=
  ⟨rfl, getRandomNote_none_or_mem random notes⟩

/-- Claim C3: for positive `days`, `getNotesFromPastDays` keeps exactly the
notes with `ctime ≥ now - days * 86_400_000`; a note whose `ctime` equals the
cutoff is included. -/
theorem getNotesFromPastDays_spec (notes : List TFile) (days now : Int)
    (hdays : 0 < days) :
    (∀ f, f ∈ getNotesFromPastDays now days notes ↔
        f ∈ notes ∧ now - days * 86400000 ≤ f.stat.ctime) ∧
      (∀ f, f ∈ notes → f.stat.ctime = now - days * 86400000 →
        f ∈ getNotesFromPastDays now days notes) := by
  have hmem : ∀ f, f ∈ getNotesFromPastDays now days notes ↔
      f ∈ notes ∧ now - days * 86400000 ≤ f.stat.ctime := by
    intro f
    simp only [getNotesFromPastDays, List.mem_filter, decide_eq_true_eq,
      MILLISECONDS_PER_DAY]
    norm_num
  refine ⟨hmem, ?_⟩
  intro f hf he
  exact (hmem f).mpr ⟨hf, le_of_eq he.symm⟩

/-- Concrete instance discharging the hypothesis of
`getNotesFromPastDays_spec`. -/
theorem getNotesFromPastDays_spec_witness :
    (0 : Int) < 7 ∧
      (sampleNote ∈ getNotesFromPastDays 0 7 [sampleNote] ↔
        sampleNote ∈ [sampleNote] ∧ (0 : Int) - 7 * 86400000 ≤ sampleNote.stat.ctime) :=
  ⟨by norm_num, (getNotesFromPastDays_spec [sampleNote] 7 0 (by norm_num)).1 sampleNote⟩

/-- Claim C4: `getNotesFromDirectory` keeps exactly the notes whose path
starts with the directory string as a literal character-wise prefix, and in
particular the directory `"Projects"` matches both `"Projects/a.md"` and
`"ProjectsArchive/b.md"`. -/
theorem getNotesFromDirectory_spec :
    (∀ (notes : List TFile) (directoryPath : String) (f : TFile),
        f ∈ getNotesFromDirectory directoryPath notes ↔
          f ∈ notes ∧ jsStartsWith f.path directoryPath = true) ∧
      (∀ s pat : String, jsStartsWith s pat = true ↔ pat.data <+: s.data) ∧
      jsStartsWith "Projects/a.md" "Projects" = true ∧
      jsStartsWith "ProjectsArchive/b.md" "Projects" = true := by
  refine ⟨?_, ?_, by decide, by decide⟩
  · intro notes directoryPath f
    simp [getNotesFromDirectory, List.mem_filter]
  · intro s pat
    simp [jsStartsWith, List.isPrefixOf_iff_prefix]

/-- Claim C5: if the configured custom-directory string for a slot in
`{1,2,3}` trims to the empty string, `openRandomNoteFromCustomDirectory`
emits exactly the configuration-prompt notice and opens nothing; the result
does not depend on the vault, so no filtering, pick or open is attempted. -/
theorem openRandomNoteFromCustomDirectory_unconfigured (random : ℚ)
    (openSucceeds : Bool) (vault : List TFile) (settings : ObsiRandomSettings)
    (num : Nat) (hnum : num = 1 ∨ num = 2 ∨ num = 3)
    (hblank : jsTrim (customDirectoryOf settings num) = "") :
    openRandomNoteFromCustomDirectory random openSucceeds vault settings num =
      { notices := ["Please set Custom Directory " ++ toString num ++
          " in plugin settings first!"],
        opened := none } := by
  unfold openRandomNoteFromCustomDirectory
  simp [hblank]

/-- Concrete instance (whitespace-only slot 1) discharging the hypotheses of
`openRandomNoteFromCustomDirectory_unconfigured`. -/
theorem openRandomNoteFromCustomDirectory_unconfigured_witness :
    (1 = 1 ∨ 1 = 2 ∨ 1 = 3) ∧ jsTrim (customDirectoryOf blankSettings 1) = "" ∧
      openRandomNoteFromCustomDirectory 0 true [sampleNote] blankSettings 1 =
        { notices := ["Please set Custom Directory 1 in plugin settings first!"],
          opened := none } :=
  ⟨Or.inl rfl, by decide,
    openRandomNoteFromCustomDirectory_unconfigured 0 true [sampleNote] blankSettings 1
      (Or.inl rfl) (by decide)⟩

/-- Claim C6: for every context string, `openRandomNote` on the empty
candidate list emits exactly the notice `"No notes found " ++ context ++ "!"`
(which contains the context verbatim) and opens nothing. -/
theorem openRandomNote_empty_spec (random : ℚ) (openSucceeds : Bool)
    (context : String) :
    openRandomNote random openSucceeds [] context =
        { notices := ["No notes found " ++ context ++ "!"], opened := none } ∧
      ∃ front back, "No notes found " ++ context ++ "!" = front ++ context ++ back :=
  ⟨rfl, "No notes found ", "!", rfl⟩

/-- Claim C7: after `updateCommands`, a custom-directory command for slot
`num ∈ {1,2,3}` is registered exactly when that slot's configured directory
is non-empty after trimming, and registration of every other command id is
unchanged. -/
theorem updateCommands_sync (manifestId : String) (settings : ObsiRandomSettings)
    (registry : Finset String) (num : Nat) (hnum : num = 1 ∨ num = 2 ∨ num = 3) :
    (customCommandId manifestId num ∈ updateCommands manifestId settings registry ↔
        jsTrim (customDirectoryOf settings num) ≠ "") ∧
      (∀ id : String, id ≠ customCommandId manifestId 1 →
        id ≠ customCommandId manifestId 2 → id ≠ customCommandId manifestId 3 →
        (id ∈ updateCommands manifestId settings registry ↔ id ∈ registry)) := by
  have h12 := customCommandId_inj manifestId 1 2 (by decide)
  have h13 := customCommandId_inj manifestId 1 3 (by decide)
  have h23 := customCommandId_inj manifestId 2 3 (by decide)
  constructor
  · rcases hnum with rfl | rfl | rfl
    · simp only [updateCommands, mem_addCustomCommands, mem_removeCustomCommands]
      constructor
      · rintro (⟨h, -⟩ | ⟨-, heq⟩ | ⟨-, heq⟩ | ⟨-, hne, -, -⟩)
        · exact h
        · exact absurd heq h12
        · exact absurd heq h13
        · exact absurd rfl hne
      · intro h
        exact Or.inl ⟨h, trivial⟩
    · simp only [updateCommands, mem_addCustomCommands, mem_removeCustomCommands]
      constructor
      · rintro (⟨-, heq⟩ | ⟨h, -⟩ | ⟨-, heq⟩ | ⟨-, -, hne, -⟩)
        · exact absurd heq.symm h12
        · exact h
        · exact absurd heq h23
        · exact absurd rfl hne
      · intro h
        exact Or.inr (Or.inl ⟨h, trivial⟩)
    · simp only [updateCommands, mem_addCustomCommands, mem_removeCustomCommands]
      constructor
      · rintro (⟨-, heq⟩ | ⟨-, heq⟩ | ⟨h, -⟩ | ⟨-, -, -, hne⟩)
        · exact absurd heq.symm h13
        · exact absurd heq.symm h23
        · exact h
        · exact absurd rfl hne
      · intro h
        exact Or.inr (Or.inr (Or.inl ⟨h, trivial⟩))
  · intro id hne1 hne2 hne3
    simp only [updateCommands, mem_addCustomCommands, mem_removeCustomCommands]
    constructor
    · rintro (⟨-, heq⟩ | ⟨-, heq⟩ | ⟨-, heq⟩ | ⟨h, -⟩)
      · exact absurd heq hne1
      · exact absurd heq hne2
      · exact absurd heq hne3
      · exact h
    · intro h
      exact Or.inr (Or.inr (Or.inr ⟨h, hne1, hne2, hne3⟩))

/-- Concrete instance discharging the hypothesis of `updateCommands_sync`. -/
theorem updateCommands_sync_witness :
    (1 = 1 ∨ 1 = 2 ∨ 1 = 3) ∧
      (customCommandId "obsi-random" 1 ∈ updateCommands "obsi-random" sampleSettings ∅ ↔
        jsTrim (customDirectoryOf sampleSettings 1) ≠ "") :=
  ⟨Or.inl rfl, (updateCommands_sync "obsi-random" sampleSettings ∅ 1 (Or.inl rfl)).1⟩

/-- Claim C8: the selector operations are pure functions of their input: both
filters return sublists of the input list (so every output element is one of
the unmodified input records), and the random pick returns `none` or an
element of the input — no operation alters the input list or a note. -/
theorem selector_no_mutation (now days : Int) (directoryPath : String)
    (notes : List TFile) (random : ℚ) :
    List.Sublist (getNotesFromPastDays now days notes) notes ∧
      List.Sublist (getNotesFromDirectory directoryPath notes) notes ∧
      (getRandomNote random notes = none ∨
        ∃ x, x ∈ notes ∧ getRandomNote random notes = some x) :=
  ⟨List.filter_sublist notes, List.filter_sublist notes,
    getRandomNote_none_or_mem random notes⟩

/-- Claim C9: both filters return an order-preserving subsequence of the
input list (original relative order and multiplicity). -/
theorem filters_order_preserving (now days : Int) (directoryPath : String)
    (notes : List TFile) :
    List.Sublist (getNotesFromPastDays now days notes) notes ∧
      List.Sublist (getNotesFromDirectory directoryPath notes) notes :=
  ⟨List.filter_sublist notes, List.filter_sublist notes⟩

/-- Claim C10: the recency windows are fixed constant day counts 7, 30 and
365, so the past-week, past-month and past-year filters keep exactly the
notes with `ctime` at least `now - 604_800_000`, `now - 2_592_000_000` and
`now - 31_536_000_000` milliseconds respectively. -/
theorem time_periods_fixed :
    TIME_PERIODS.WEEK = 7 ∧ TIME_PERIODS.MONTH = 30 ∧ TIME_PERIODS.YEAR = 365 ∧
      (∀ (now : Int) (notes : List TFile) (f : TFile),
        f ∈ getNotesFromPastWeek now notes ↔ f ∈ notes ∧ now - 604800000 ≤ f.stat.ctime) ∧
      (∀ (now : Int) (notes : List TFile) (f : TFile),
        f ∈ getNotesFromPastMonth now notes ↔ f ∈ notes ∧ now - 2592000000 ≤ f.stat.ctime) ∧
      (∀ (now : Int) (notes : List TFile) (f : TFile),
        f ∈ getNotesFromPastYear now notes ↔ f ∈ notes ∧ now - 31536000000 ≤ f.stat.ctime) := by
  refine ⟨rfl, rfl, rfl, ?_, ?_, ?_⟩ <;>
    · intro now notes f
      simp only [getNotesFromPastWeek, getNotesFromPastMonth, getNotesFromPastYear,
        getNotesFromPastDays, TIME_PERIODS, MILLISECONDS_PER_DAY, List.mem_filter,
        decide_eq_true_eq]
      norm_num
